import Mathlib

/-!
Verification development for the EcoSort-AI demo page
(`src/app/demo/page.tsx`), a single React client component
`WasteAnalyzerPage`.  The component keeps five pieces of page state
(`imageFile`, `imagePreview`, `analysisResult`, `isLoading`, `error`) and
exposes two operations driven by the user: `handleFileChange` and
`handleAnalyze`.  `handleAnalyze` base64-encodes the uploaded file, POSTs
it to a fixed Gemini endpoint inside a retry loop (3 attempts, doubling
delay starting at 1000 ms), and parses the JSON response into page state.

The embedding below is a shallow one:

* JS values that cross the network boundary are modelled by the `JsonV`
  JSON value type; JS object literals become `JsonV.obj` literals.
* The browser primitives the component calls (`FileReader.readAsDataURL`,
  i.e. base64 encoding, and `String.prototype.split`) are modelled by
  executable Lean functions with the documented semantics.
* The outcome of each `fetch` call is an oracle `env : Nat → AttemptResult`
  giving, per fetch attempt, either a network rejection or an HTTP
  response; `JSON.parse` of the model-produced text is an oracle
  `parse : String → ParseOutcome`.  Theorems quantify over these oracles.
* Exceptions are explicit: the body of `handleAnalyze`'s `try` is a
  function into `Except String _`; the `catch`/`finally` blocks are the
  surrounding match.  A run also produces a `RunTrace`: the list of
  requests sent and the list of sleep durations awaited, in order.
-/

/-- A JSON value, the shape of the JS object literals the page builds. -/
inductive JsonV where
  | str (s : String)
  | num (n : Int)
  | obj (fields : List (String × JsonV))
  | arr (items : List JsonV)

/-- Field lookup on a JSON object (`x.field` in JS), `none` off objects. -/
def JsonV.get? (j : JsonV) (k : String) : Option JsonV :=
  match j with
  | .obj fields => fields.lookup k
  | _ => none

/-- Index lookup on a JSON array (`x[i]` in JS), `none` off arrays. -/
def JsonV.at? (j : JsonV) (i : Nat) : Option JsonV :=
  match j with
  | .arr items => items[i]?
  | _ => none

/-- An uploaded image file: its MIME type (`file.type`) and raw bytes. -/
structure FileB where
  type : String
  bytes : List Nat
  deriving Repr, DecidableEq

/-! ### Base64 data URLs (`FileReader.readAsDataURL`)

`fileToGenerativePart` reads the file as a data URL
`data:<mime>;base64,<payload>` and keeps everything after the first
comma.  The browser's base64 encoder is modelled by `base64Encode`
(standard RFC 4648 alphabet with `=` padding); `String.prototype.split`
with the one-character separator `","` is modelled by `jsSplitComma`. -/

/-- The base64 alphabet, in encoding order. -/
def base64Chars : List Char :=
  "ABCDEFGHIJKLMNOPQRSTUVWXYZabcdefghijklmnopqrstuvwxyz0123456789+/".toList

/-- The base64 digit for a sextet value. -/
def b64c (n : Nat) : Char := base64Chars.getD n '='

/-- Base64 encoding of a byte list, three input bytes to four output
characters, with `=` padding on a short final group. -/
def base64Encode : List Nat → List Char
  | b1 :: b2 :: b3 :: rest =>
      b64c (b1 % 256 / 4) :: b64c (b1 % 4 * 16 + b2 % 256 / 16) ::
      b64c (b2 % 16 * 4 + b3 % 256 / 64) :: b64c (b3 % 64) :: base64Encode rest
  | [b1, b2] =>
      [b64c (b1 % 256 / 4), b64c (b1 % 4 * 16 + b2 % 256 / 16),
       b64c (b2 % 16 * 4), '=']
  | [b1] => [b64c (b1 % 256 / 4), b64c (b1 % 4 * 16), '=', '=']
  | [] => []

/-- Accumulator-style splitting of a character list at every comma:
the semantics of JS `s.split(",")`. -/
def splitCommaAux : List Char → List Char → List (List Char)
  | [], acc => [acc.reverse]
  | c :: cs, acc =>
      if c = ',' then acc.reverse :: splitCommaAux cs [] else splitCommaAux cs (c :: acc)

/-- JS `s.split(",")`. -/
def jsSplitComma (s : String) : List String :=
  (splitCommaAux s.toList []).map fun cs => String.mk cs

/-- The data URL `FileReader.readAsDataURL` produces for a file. -/
def dataURL (f : FileB) : String :=
  "data:" ++ f.type ++ ";base64" ++ "," ++ String.mk (base64Encode f.bytes)

/-- `fileToGenerativePart` (page.tsx lines 22–31): base64-encode the file
via a data URL, split at commas and keep index 1, and pair the payload
with the file's MIME type as `inlineData`. -/
def fileToGenerativePart (f : FileB) : JsonV :=
  .obj [("inlineData", .obj
    [("data", .str ((jsSplitComma (dataURL f)).getD 1 "")),
     ("mimeType", .str f.type)])]

/-! ### The request payload (page.tsx lines 70–193) -/

/-- The fixed endpoint URL (the API key is the empty string in source). -/
def apiUrl : String :=
  "https://generativelanguage.googleapis.com/v1beta/models/gemini-2.5-flash-preview-09-2025:generateContent?key="

/-- The system prompt string literal. -/
def systemPrompt : String :=
  "You are a waste management expert. Analyze the user's image of a waste item. First, identify the waste type, home treatment, and industry treatment for the item in the image. " ++
  "In *addition* to identifying the item, you must *also* generate a complete set of *mock dashboard data* (stats, charts) to simulate a full user profile. " ++
  "The identified item (waste_type, etc.) should be based on the image, but all other dashboard data should be plausibly fabricated. " ++
  "Ensure the generated hex colors are distinct and aesthetically pleasing in a dark mode UI. " ++
  "Respond *only* with the complete JSON object requested."

/-- The user query string literal. -/
def userQuery : String :=
  "Analyze this image and provide waste treatment information and mock dashboard data."

/-- The fixed response schema object (page.tsx lines 85–177), with its
`required` list of exactly seven field names. -/
def responseSchema : JsonV :=
  .obj
    [("type", .str "OBJECT"),
     ("properties", .obj
       [("waste_type", .obj
          [("type", .str "STRING"),
           ("description", .str "The common name of the waste item in the image (e.g., 'Plastic Water Bottle', 'Apple Core').")]),
        ("home_treatment", .obj
          [("type", .str "STRING"),
           ("description", .str "Concise instructions for how a person should dispose of this item at home.")]),
        ("industry_treatment", .obj
          [("type", .str "STRING"),
           ("description", .str "A brief explanation of what happens to this item at an industrial/municipal level.")]),
        ("stats", .obj
          [("type", .str "OBJECT"),
           ("description", .str "A set of mock statistics for the user's dashboard."),
           ("properties", .obj
             [("recycled_items_count", .obj
                [("type", .str "NUMBER"),
                 ("description", .str "A mock count of total items recycled by this user (e.g., 2847).")]),
              ("carbon_saved_kg", .obj
                [("type", .str "STRING"),
                 ("description", .str "A mock string representing total carbon saved, including units (e.g., '284 kg').")]),
              ("average_score_percent", .obj
                [("type", .str "STRING"),
                 ("description", .str "A mock user 'eco-score' as a percentage string (e.g., '87%').")])])]),
        ("waste_composition", .obj
          [("type", .str "ARRAY"),
           ("description", .str "An array of 5 objects representing the user's mock waste composition for a pie chart."),
           ("items", .obj
             [("type", .str "OBJECT"),
              ("properties", .obj
                [("name", .obj [("type", .str "STRING"), ("description", .str "Category of waste (e.g., 'Plastic').")]),
                 ("value", .obj [("type", .str "NUMBER"), ("description", .str "Percentage value (e.g., 35).")]),
                 ("color", .obj [("type", .str "STRING"), ("description", .str "A hex color code for the chart slice (e.g., '#e78a53').")])])])]),
        ("disposal_trends", .obj
          [("type", .str "ARRAY"),
           ("description", .str "An array of 6 objects for the last 6 months' disposal trends."),
           ("items", .obj
             [("type", .str "OBJECT"),
              ("properties", .obj
                [("month", .obj [("type", .str "STRING"), ("description", .str "Abbreviated month name (e.g., 'Jan').")]),
                 ("home", .obj [("type", .str "NUMBER"), ("description", .str "Mock 'Home' disposal value for the month.")]),
                 ("industrial", .obj [("type", .str "NUMBER"), ("description", .str "Mock 'Industrial' disposal value for the month.")])])])]),
        ("recycling_rates", .obj
          [("type", .str "ARRAY"),
           ("description", .str "An array of 5 objects representing mock recycling rates per category for a bar chart."),
           ("items", .obj
             [("type", .str "OBJECT"),
              ("properties", .obj
                [("category", .obj [("type", .str "STRING"), ("description", .str "Waste category (e.g., 'Plastic').")]),
                 ("rate", .obj [("type", .str "NUMBER"), ("description", .str "Recycling rate percentage (e.g., 68).")])])])])]),
     ("required", .arr
       [.str "waste_type", .str "home_treatment", .str "industry_treatment",
        .str "stats", .str "waste_composition", .str "disposal_trends",
        .str "recycling_rates"])]

/-- The request payload (page.tsx lines 179–193): the user parts (query
text and the image part), the system instruction, and the generation
config carrying the response schema. -/
def buildPayload (imagePart : JsonV) : JsonV :=
  .obj
    [("contents", .arr
       [.obj [("role", .str "user"),
              ("parts", .arr [.obj [("text", .str userQuery)], imagePart])]]),
     ("systemInstruction", .obj [("parts", .arr [.obj [("text", .str systemPrompt)]])]),
     ("generationConfig", .obj
       [("responseMimeType", .str "application/json"),
        ("responseSchema", responseSchema)])]

/-- One HTTP request as handed to `fetch` (page.tsx lines 202–206). -/
structure Request where
  url : String
  method : String
  headers : List (String × String)
  body : JsonV

/-- The request `handleAnalyze` sends for a given file. -/
def buildRequest (f : FileB) : Request :=
  { url := apiUrl
    method := "POST"
    headers := [("Content-Type", "application/json")]
    body := buildPayload (fileToGenerativePart f) }

/-! ### Responses and the response body (page.tsx lines 233–242)

A `fetch` response carries an HTTP status, a status text, and a body.
Per the Fetch standard, `response.ok` means the status is in 200–299.
`response.json()` either rejects (malformed body) or yields a JSON-shaped
value; the page only reads `candidates[0].content.parts[0].text` out of
it via optional chaining, so the body is modelled at that shape, with
`Option`/lists standing for possibly-absent fields. -/

/-- One part of a candidate's content; `text` may be absent. -/
structure ContentPart where
  text : Option String

/-- A candidate's content: its list of parts. -/
structure Content where
  parts : List ContentPart

/-- One response candidate; `content` may be absent. -/
structure Candidate where
  content : Option Content

/-- The JSON value `response.json()` resolves to, at the shape the page
reads (absent `candidates` is the empty list). -/
structure GeminiResult where
  candidates : List Candidate

/-- What `response.json()` does: reject with a message, or resolve. -/
inductive BodyOutcome where
  | jsonErr (msg : String)
  | jsonOk (result : GeminiResult)

/-- An HTTP response as `handleAnalyze` observes it. -/
structure Response where
  status : Nat
  statusText : String
  body : BodyOutcome

/-- `response.ok` (Fetch standard): status in the range 200–299. -/
def Response.ok (r : Response) : Bool := 200 ≤ r.status && r.status < 300

/-- The outcome of one `fetch` call: a rejection (network error) with the
error's message, or a response. -/
inductive AttemptResult where
  | netErr (msg : String)
  | resp (r : Response)

/-- The message of the `Error` thrown for a non-retryable status
(page.tsx line 219). -/
def apiErrorMsg (r : Response) : String :=
  "APIError: " ++ toString r.status ++ " " ++ r.statusText

/-- The message of the `Error` thrown when the loop ends without an ok
response (page.tsx line 230). -/
def exhaustedMsg (r : Response) : String :=
  "Failed to analyze image after retries: " ++ r.statusText

/-- The message of the `Error` thrown on an unexpected body shape
(page.tsx line 241). -/
def invalidStructureMsg : String := "Invalid response structure from API."

/-! ### The retry loop (page.tsx lines 196–227)

`let response; let retries = 3; let delay = 1000` then
`while (retries > 0) { try { fetch; if ok break; if 429/5xx sleep,
double, retries--; else throw APIError } catch { if retries === 1
rethrow; sleep, double, retries-- } }`.

Note the thrown `APIError` for a non-retryable status is raised inside
the same `try` block, so it is caught by that `try`'s own `catch` clause
and, unless `retries === 1`, retried like a network error.

The loop is embedded as a function recursing on `retries`; `response` is
an `Option Response` (`none` = still undefined), `reqs` records every
request handed to `fetch` (its length indexes the oracle), and `waits`
records every sleep duration, in order. -/

/-- How the loop can end: `break` on an ok response, an exception
propagating out, or the `while` condition turning false. -/
inductive LoopExit where
  | broke (r : Response) (reqs : List Request) (waits : List Nat)
  | threw (msg : String) (reqs : List Request) (waits : List Nat)
  | fell (response : Option Response) (reqs : List Request) (waits : List Nat)

/-- The requests a loop exit records. -/
def LoopExit.reqs : LoopExit → List Request
  | .broke _ reqs _ => reqs
  | .threw _ reqs _ => reqs
  | .fell _ reqs _ => reqs

/-- The sleep durations a loop exit records. -/
def LoopExit.waits : LoopExit → List Nat
  | .broke _ _ waits => waits
  | .threw _ _ waits => waits
  | .fell _ _ waits => waits

/-- The retry loop.  `retries = n + 1` matches a JS iteration entered
with `retries === n + 1`; `retries = 0` is the `while` guard failing. -/
def fetchLoop (env : Nat → AttemptResult) (req : Request) :
    Nat → Nat → Option Response → List Request → List Nat → LoopExit
  | 0, _, response, reqs, waits => .fell response reqs waits
  | retries + 1, delay, response, reqs, waits =>
    match env reqs.length with
    | .netErr msg =>
        if retries = 0 then .threw msg (reqs ++ [req]) waits
        else fetchLoop env req retries (delay * 2) response (reqs ++ [req]) (waits ++ [delay])
    | .resp r =>
        if r.ok then .broke r (reqs ++ [req]) waits
        else if r.status = 429 || 500 ≤ r.status then
          fetchLoop env req retries (delay * 2) (some r) (reqs ++ [req]) (waits ++ [delay])
        else if retries = 0 then .threw (apiErrorMsg r) (reqs ++ [req]) waits
        else fetchLoop env req retries (delay * 2) (some r) (reqs ++ [req]) (waits ++ [delay])

/-! ### Page state and the two operations -/

/-- The parsed analysis result `JSON.parse(jsonText)` yields: the page
stores it whole, so it is kept as a JSON value. -/
def AnalysisResult := JsonV

/-- What `JSON.parse` does on the extracted text: throw or yield. -/
inductive ParseOutcome where
  | perr (msg : String)
  | pok (value : AnalysisResult)

/-- The five `useState` page states (page.tsx lines 35–39). -/
structure PageState where
  imageFile : Option FileB
  imagePreview : String
  analysisResult : Option AnalysisResult
  isLoading : Bool
  error : String

/-- The initial page state (page.tsx lines 35–39). -/
def initState : PageState :=
  { imageFile := none, imagePreview := "", analysisResult := none,
    isLoading := false, error := "" }

/-- `handleFileChange` (page.tsx lines 44–52): on a selected file, store
it, store its object URL as the preview, clear the previous result and
the error; on no file, do nothing.  `url` is what
`URL.createObjectURL(file)` returned. -/
def handleFileChange (s : PageState) (file : Option FileB) (url : String) : PageState :=
  match file with
  | none => s
  | some f =>
      { s with imageFile := some f, imagePreview := url,
               analysisResult := none, error := "" }

/-- `candidate.content?.parts?.[0]?.text` (page.tsx line 236): the
optional-chained extraction of the first candidate's first part's text. -/
def getText (result : GeminiResult) : Option String :=
  result.candidates.head?.bind fun c =>
    c.content.bind fun ct => ct.parts.head?.bind fun p => p.text

/-- The code after the loop (page.tsx lines 229–242), given the loop's
final `response`: throw unless ok, await `response.json()`, check the
candidate text is present and truthy (a JS empty string is falsy),
`JSON.parse` it.  Reading `.ok` off a still-undefined `response` is the
TypeError the JS engine would raise there. -/
def afterLoop (parse : String → ParseOutcome) :
    Option Response → Except String AnalysisResult
  | none => .error "Cannot read properties of undefined (reading 'ok')"
  | some r =>
      if !r.ok then .error (exhaustedMsg r)
      else match r.body with
        | .jsonErr msg => .error msg
        | .jsonOk result =>
            match getText result with
            | some jsonText =>
                if jsonText = "" then .error invalidStructureMsg
                else match parse jsonText with
                  | .perr msg => .error msg
                  | .pok value => .ok value
            | none => .error invalidStructureMsg

/-- A run's observable network activity: every request handed to `fetch`
and every sleep duration awaited, in order. -/
structure RunTrace where
  requests : List Request
  waits : List Nat

/-- The body of `handleAnalyze`'s `try` block (page.tsx lines 69–242)
for a selected file: build the request, run the retry loop, process the
final response.  `.error` is an exception propagating to the `catch`. -/
def tryBody (f : FileB) (env : Nat → AttemptResult) (parse : String → ParseOutcome) :
    Except String AnalysisResult × RunTrace :=
  match fetchLoop env (buildRequest f) 3 1000 none [] [] with
  | .broke r reqs waits => (afterLoop parse (some r), ⟨reqs, waits⟩)
  | .threw msg reqs waits => (.error msg, ⟨reqs, waits⟩)
  | .fell response reqs waits => (afterLoop parse response, ⟨reqs, waits⟩)

/-- The state `handleAnalyze` establishes before the network call
(page.tsx lines 65–67): loading on, error and previous result cleared. -/
def preRequestState (s : PageState) : PageState :=
  { s with isLoading := true, error := "", analysisResult := none }

/-- The error message the `catch` block shows (page.tsx line 245). -/
def errorMessage (msg : String) : String :=
  "Failed to analyze image. " ++ msg ++ ". Please try again."

/-- The guard message (page.tsx line 61). -/
def noImageMsg : String := "Please upload an image first."

/-- A `handleAnalyze` run's result: the final page state and the trace. -/
structure HAResult where
  state : PageState
  trace : RunTrace

/-- `handleAnalyze` (page.tsx lines 59–249).  Guard: no image selected
sets the error and returns.  Otherwise set loading, clear error and
result, run the `try` body; the `catch` turns an exception into the
user-visible error message; the `finally` clears loading. -/
def handleAnalyze (s : PageState) (env : Nat → AttemptResult)
    (parse : String → ParseOutcome) : HAResult :=
  match s.imageFile with
  | none => { state := { s with error := noImageMsg }, trace := ⟨[], []⟩ }
  | some f =>
      match tryBody f env parse with
      | (.ok value, trace) =>
          { state := { preRequestState s with analysisResult := some value, isLoading := false }
            trace := trace }
      | (.error msg, trace) =>
          { state := { preRequestState s with error := errorMessage msg, isLoading := false }
            trace := trace }

/-! ### Rendering (page.tsx lines 337–357) -/

/-- The Analyze button's `disabled` prop (page.tsx line 339):
`isLoading || !imageFile`. -/
def analyzeButtonDisabled (s : PageState) : Bool :=
  s.isLoading || s.imageFile.isNone

/-- Whether the error banner renders (page.tsx line 350): `{error && …}`,
i.e. the error string is truthy (non-empty). -/
def errorBannerShown (s : PageState) : Bool := s.error != ""

/-- Whether the dashboard renders (page.tsx line 357):
`{analysisResult && …}`. -/
def dashboardShown (s : PageState) : Bool := s.analysisResult.isSome

/-! ### Sequences of user operations -/

/-- One user-driven operation on the page. -/
inductive Step where
  | fileChange (file : Option FileB) (url : String)
  | analyze (env : Nat → AttemptResult) (parse : String → ParseOutcome)

/-- Apply one operation to the page state. -/
def applyStep (s : PageState) : Step → PageState
  | .fileChange file url => handleFileChange s file url
  | .analyze env parse => (handleAnalyze s env parse).state

/-- Run a sequence of operations from a state. -/
def runSteps (s : PageState) (steps : List Step) : PageState :=
  steps.foldl applyStep s

/-! ### Lemmas about the retry loop -/

theorem fetchLoop_reqs_length (env : Nat → AttemptResult) (req : Request) :
    ∀ retries delay response reqs waits,
      (fetchLoop env req retries delay response reqs waits).reqs.length ≤
        reqs.length + retries := by
  intro retries
  induction retries with
  | zero =>
      intro delay response reqs waits
      simp [fetchLoop, LoopExit.reqs]
  | succ n ih =>
      intro delay response reqs waits
      simp only [fetchLoop]
      cases env reqs.length with
      | netErr msg =>
          by_cases h : n = 0
          · subst h; simp [LoopExit.reqs]
          · simp only [h, if_false]
            calc (fetchLoop env req n (delay * 2) response (reqs ++ [req])
                    (waits ++ [delay])).reqs.length
                ≤ (reqs ++ [req]).length + n := ih _ _ _ _
              _ ≤ reqs.length + (n + 1) := by simp; omega
      | resp r =>
          by_cases hok : r.ok
          · simp [hok, LoopExit.reqs]
          · simp only [hok, if_false, Bool.false_eq_true]
            by_cases hst : (r.status = 429 || 500 ≤ r.status) = true
            · simp only [hst, if_true]
              calc (fetchLoop env req n (delay * 2) (some r) (reqs ++ [req])
                      (waits ++ [delay])).reqs.length
                  ≤ (reqs ++ [req]).length + n := ih _ _ _ _
                _ ≤ reqs.length + (n + 1) := by simp; omega
            · simp only [hst, if_false]
              by_cases h : n = 0
              · subst h; simp [LoopExit.reqs]
              · simp only [h, if_false]
                calc (fetchLoop env req n (delay * 2) (some r) (reqs ++ [req])
                        (waits ++ [delay])).reqs.length
                    ≤ (reqs ++ [req]).length + n := ih _ _ _ _
                  _ ≤ reqs.length + (n + 1) := by simp; omega

theorem fetchLoop_reqs_mem (env : Nat → AttemptResult) (req : Request) :
    ∀ retries delay response reqs waits r,
      r ∈ (fetchLoop env req retries delay response reqs waits).reqs →
      r ∈ reqs ∨ r = req := by
  intro retries
  induction retries with
  | zero =>
      intro delay response reqs waits r hr
      simp [fetchLoop, LoopExit.reqs] at hr
      exact Or.inl hr
  | succ n ih =>
      intro delay response reqs waits r hr
      simp only [fetchLoop] at hr
      cases henv : env reqs.length with
      | netErr msg =>
          rw [henv] at hr
          by_cases h : n = 0
          · subst h; simp [LoopExit.reqs] at hr; exact hr
          · simp only [h, if_false] at hr
            rcases ih _ _ _ _ _ hr with h' | h'
            · simpa using h'
            · exact Or.inr h'
      | resp r' =>
          rw [henv] at hr
          by_cases hok : r'.ok
          · simp [hok, LoopExit.reqs] at hr; exact hr
          · simp only [hok, if_false, Bool.false_eq_true] at hr
            by_cases hst : (r'.status = 429 || 500 ≤ r'.status) = true
            · simp only [hst, if_true] at hr
              rcases ih _ _ _ _ _ hr with h' | h'
              · simpa using h'
              · exact Or.inr h'
            · simp only [hst, if_false] at hr
              by_cases h : n = 0
              · subst h; simp [LoopExit.reqs] at hr; exact hr
              · simp only [h, if_false] at hr
                rcases ih _ _ _ _ _ hr with h' | h'
                · simpa using h'
                · exact Or.inr h'

theorem fetchLoop_waits_shape (env : Nat → AttemptResult) (req : Request) :
    ∀ retries delay response reqs waits,
      ∃ k ≤ retries,
        (fetchLoop env req retries delay response reqs waits).waits =
          waits ++ (List.range k).map fun i => delay * 2 ^ i := by
  intro retries
  induction retries with
  | zero =>
      intro delay response reqs waits
      exact ⟨0, Nat.le_refl 0, by simp [fetchLoop, LoopExit.waits]⟩
  | succ n ih =>
      intro delay response reqs waits
      simp only [fetchLoop]
      have hfun : ((fun i => delay * 2 ^ i) ∘ Nat.succ) = fun i => delay * 2 * 2 ^ i := by
        funext i
        simp [Function.comp, pow_succ]
        ring
      cases env reqs.length with
      | netErr msg =>
          by_cases h : n = 0
          · subst h; exact ⟨0, by omega, by simp [LoopExit.waits]⟩
          · simp only [h, if_false]
            obtain ⟨k, hk, hw⟩ := ih (delay * 2) response (reqs ++ [req]) (waits ++ [delay])
            refine ⟨k + 1, by omega, ?_⟩
            rw [hw, List.range_succ_eq_map, List.map_cons, List.map_map, hfun]
            simp
      | resp r =>
          dsimp only
          by_cases hok : r.ok
          · rw [if_pos hok]
            exact ⟨0, by omega, by simp [LoopExit.waits]⟩
          · rw [if_neg hok]
            by_cases hst : (r.status = 429 || 500 ≤ r.status) = true
            · rw [if_pos hst]
              obtain ⟨k, hk, hw⟩ := ih (delay * 2) (some r) (reqs ++ [req]) (waits ++ [delay])
              refine ⟨k + 1, by omega, ?_⟩
              rw [hw, List.range_succ_eq_map, List.map_cons, List.map_map, hfun]
              simp
            · rw [if_neg hst]
              by_cases h : n = 0
              · subst h; exact ⟨0, by omega, by simp [LoopExit.waits]⟩
              · rw [if_neg h]
                obtain ⟨k, hk, hw⟩ := ih (delay * 2) (some r) (reqs ++ [req]) (waits ++ [delay])
                refine ⟨k + 1, by omega, ?_⟩
                rw [hw, List.range_succ_eq_map, List.map_cons, List.map_map, hfun]
                simp

/-! ### Unfolding lemmas for `handleAnalyze` -/

theorem handleAnalyze_trace (s : PageState) (f : FileB) (env : Nat → AttemptResult)
    (parse : String → ParseOutcome) (h : s.imageFile = some f) :
    (handleAnalyze s env parse).trace = (tryBody f env parse).2 := by
  simp only [handleAnalyze, h]
  rcases tryBody f env parse with ⟨msg | v, t⟩ <;> rfl

theorem handleAnalyze_state_ok (s : PageState) (f : FileB) (env : Nat → AttemptResult)
    (parse : String → ParseOutcome) (v : AnalysisResult) (h : s.imageFile = some f)
    (hok : (tryBody f env parse).1 = .ok v) :
    (handleAnalyze s env parse).state =
      { s with isLoading := false, error := "", analysisResult := some v } := by
  simp only [handleAnalyze, h]
  rcases htb : tryBody f env parse with ⟨o, t⟩
  rw [htb] at hok
  simp only at hok
  subst hok
  simp [preRequestState, h]

theorem handleAnalyze_state_err (s : PageState) (f : FileB) (env : Nat → AttemptResult)
    (parse : String → ParseOutcome) (msg : String) (h : s.imageFile = some f)
    (herr : (tryBody f env parse).1 = .error msg) :
    (handleAnalyze s env parse).state =
      { s with isLoading := false, error := errorMessage msg, analysisResult := none } := by
  simp only [handleAnalyze, h]
  rcases htb : tryBody f env parse with ⟨o, t⟩
  rw [htb] at herr
  simp only at herr
  subst herr
  simp [preRequestState, h]

theorem tryBody_requests (f : FileB) (env : Nat → AttemptResult)
    (parse : String → ParseOutcome) :
    (tryBody f env parse).2.requests =
      (fetchLoop env (buildRequest f) 3 1000 none [] []).reqs := by
  unfold tryBody
  rcases fetchLoop env (buildRequest f) 3 1000 none [] [] with r | r | r <;> rfl

theorem tryBody_waits (f : FileB) (env : Nat → AttemptResult)
    (parse : String → ParseOutcome) :
    (tryBody f env parse).2.waits =
      (fetchLoop env (buildRequest f) 3 1000 none [] []).waits := by
  unfold tryBody
  rcases fetchLoop env (buildRequest f) 3 1000 none [] [] with r | r | r <;> rfl

/-! ### Concrete fixtures used by closed witness statements -/

/-- A concrete uploaded file. -/
def exFile : FileB := { type := "image/png", bytes := [77, 97, 110] }

/-- A page state with `exFile` uploaded. -/
def exState : PageState := { initState with imageFile := some exFile }

/-- A well-formed response body. -/
def goodBody : BodyOutcome :=
  .jsonOk { candidates := [{ content := some { parts := [{ text := some "{}" }] } }] }

/-- An environment whose every attempt succeeds with HTTP 200. -/
def envOk : Nat → AttemptResult :=
  fun _ => .resp { status := 200, statusText := "OK", body := goodBody }

/-- A 500 response. -/
def r500 : Response :=
  { status := 500, statusText := "Internal Server Error", body := .jsonErr "e" }

/-- An environment answering 500 twice, then 200. -/
def envFlaky : Nat → AttemptResult :=
  fun k => if k < 2 then .resp r500
           else .resp { status := 200, statusText := "OK", body := goodBody }

/-- A 400 response. -/
def r400 : Response := { status := 400, statusText := "Bad Request", body := .jsonErr "e" }

/-- An environment answering 400 on every attempt. -/
def env400 : Nat → AttemptResult := fun _ => .resp r400

/-- A parse oracle that always succeeds. -/
def parseOk : String → ParseOutcome := fun _ => .pok (.obj [])

/-! ### The claims -/

/-- C2: for every invocation of `handleAnalyze` with an image file
selected, the retry loop terminates (the embedding is a total function
recursing on the retry counter) and performs at most 3 fetch attempts in
total, regardless of which mix of retryable HTTP statuses and thrown
network errors the attempts produce. -/
theorem C2_at_most_three_attempts (s : PageState) (f : FileB)
    (env : Nat → AttemptResult) (parse : String → ParseOutcome)
    (h : s.imageFile = some f) :
    (handleAnalyze s env parse).trace.requests.length ≤ 3 := by
  rw [handleAnalyze_trace s f env parse h, tryBody_requests]
  simpa using fetchLoop_reqs_length env (buildRequest f) 3 1000 none [] []

/-- Witness for C2 at a concrete state and environment. -/
theorem C2_witness :
    (handleAnalyze exState envFlaky parseOk).trace.requests.length ≤ 3 :=
  C2_at_most_three_attempts exState exFile envFlaky parseOk rfl

/-- C3: the backoff delay starts at 1000 ms and doubles after every
retried attempt: the recorded sleep durations are always an initial
segment of `[1000, 2000, 4000]`, so the waits before the second and
third attempts are exactly 1000 ms and 2000 ms. -/
theorem C3_backoff_delays (s : PageState) (f : FileB)
    (env : Nat → AttemptResult) (parse : String → ParseOutcome)
    (h : s.imageFile = some f) :
    ∃ k ≤ 3, (handleAnalyze s env parse).trace.waits =
      List.take k [1000, 2000, 4000] := by
  rw [handleAnalyze_trace s f env parse h, tryBody_waits]
  obtain ⟨k, hk, hw⟩ := fetchLoop_waits_shape env (buildRequest f) 3 1000 none [] []
  refine ⟨k, hk, ?_⟩
  rw [hw]
  interval_cases k <;> rfl

/-- Witness for C3: two 500s then a success wait 1000 ms then 2000 ms. -/
theorem C3_witness :
    ∃ k ≤ 3, (handleAnalyze exState envFlaky parseOk).trace.waits =
      List.take k [1000, 2000, 4000] :=
  C3_backoff_delays exState exFile envFlaky parseOk rfl

/-- C6: `handleFileChange` on a new file replaces the stored file and
preview, clears the previous analysis result and the error message, and
changes no other page state (`isLoading` is untouched). -/
theorem C6_file_change_resets (s : PageState) (f : FileB) (url : String) :
    (handleFileChange s (some f) url).imageFile = some f ∧
    (handleFileChange s (some f) url).imagePreview = url ∧
    (handleFileChange s (some f) url).analysisResult = none ∧
    (handleFileChange s (some f) url).error = "" ∧
    (handleFileChange s (some f) url).isLoading = s.isLoading := by
  simp [handleFileChange]

/-- C7: in every rendered state, the Analyze button is disabled whenever
no image file has been uploaded, and whenever an analysis is loading. -/
theorem C7_button_disabled (s : PageState) :
    (s.imageFile = none → analyzeButtonDisabled s = true) ∧
    (s.isLoading = true → analyzeButtonDisabled s = true) := by
  constructor <;> intro h <;> simp [analyzeButtonDisabled, h]

/-- Witness for C7 at concrete states. -/
theorem C7_witness :
    analyzeButtonDisabled initState = true ∧
    analyzeButtonDisabled (preRequestState exState) = true :=
  ⟨(C7_button_disabled initState).1 rfl,
   (C7_button_disabled (preRequestState exState)).2 rfl⟩

/-- Helper: `handleAnalyze` never leaves `isLoading` set when it was
clear: the guard path does not touch it and the main path clears it in
`finally`. -/
theorem handleAnalyze_isLoading_false (s : PageState) (env : Nat → AttemptResult)
    (parse : String → ParseOutcome) (h : s.isLoading = false) :
    (handleAnalyze s env parse).state.isLoading = false := by
  rcases hif : s.imageFile with _ | f
  · simp [handleAnalyze, hif, h]
  · rcases hres : (tryBody f env parse).1 with msg | v
    · rw [handleAnalyze_state_err s f env parse msg hif hres]
    · rw [handleAnalyze_state_ok s f env parse v hif hres]

/-- Helper: along any run of user operations from a quiescent state, the
state stays quiescent between operations. -/
theorem runSteps_isLoading_false (steps : List Step) :
    ∀ s, s.isLoading = false → (runSteps s steps).isLoading = false := by
  induction steps with
  | nil => intro s h; exact h
  | cons st rest ih =>
      intro s h
      simp only [runSteps, List.foldl_cons]
      apply ih
      cases st with
      | fileChange file url => cases file <;> simp [applyStep, handleFileChange, h]
      | analyze env parse => exact handleAnalyze_isLoading_false s env parse h

/-- C8: every invocation of `handleAnalyze` that passes the image-file
guard runs the network call from a state with `isLoading = true`
(`preRequestState`) and returns with `isLoading = false`, on the success
path and on every failure path alike. -/
theorem C8_loading_lifecycle (s : PageState) (f : FileB)
    (env : Nat → AttemptResult) (parse : String → ParseOutcome)
    (h : s.imageFile = some f) :
    (preRequestState s).isLoading = true ∧
    (handleAnalyze s env parse).state.isLoading = false := by
  refine ⟨rfl, ?_⟩
  rcases hres : (tryBody f env parse).1 with msg | v
  · rw [handleAnalyze_state_err s f env parse msg h hres]
  · rw [handleAnalyze_state_ok s f env parse v h hres]

/-- Witness for C8, also exercising the quiescent-state helper. -/
theorem C8_witness :
    (preRequestState exState).isLoading = true ∧
    (handleAnalyze exState envOk parseOk).state.isLoading = false :=
  C8_loading_lifecycle exState exFile envOk parseOk rfl

/-- C10: invoking `handleAnalyze` with no image uploaded sets the error
to exactly "Please upload an image first." and returns at once: no
request is sent and the other four state fields are unchanged. -/
theorem C10_guard_no_image (s : PageState) (env : Nat → AttemptResult)
    (parse : String → ParseOutcome) (h : s.imageFile = none) :
    (handleAnalyze s env parse).state.error = noImageMsg ∧
    (handleAnalyze s env parse).trace.requests = [] ∧
    (handleAnalyze s env parse).state.isLoading = s.isLoading ∧
    (handleAnalyze s env parse).state.analysisResult = s.analysisResult ∧
    (handleAnalyze s env parse).state.imageFile = none ∧
    (handleAnalyze s env parse).state.imagePreview = s.imagePreview := by
  simp [handleAnalyze, h, noImageMsg]

/-- Witness for C10 at the initial state. -/
theorem C10_witness :
    (handleAnalyze initState envOk parseOk).state.error = noImageMsg ∧
    (handleAnalyze initState envOk parseOk).trace.requests = [] ∧
    (handleAnalyze initState envOk parseOk).state.isLoading = initState.isLoading ∧
    (handleAnalyze initState envOk parseOk).state.analysisResult = initState.analysisResult ∧
    (handleAnalyze initState envOk parseOk).state.imageFile = none ∧
    (handleAnalyze initState envOk parseOk).state.imagePreview = initState.imagePreview :=
  C10_guard_no_image initState envOk parseOk rfl

/-- Helper: the `catch` block's message is never the empty string, so a
failing run always renders the error banner. -/
theorem errorMessage_ne_empty (msg : String) : errorMessage msg ≠ "" := by
  intro h
  have h2 := congrArg String.length h
  simp [errorMessage, String.length_append] at h2
  exact absurd h2.2 (by decide)

/-- C4: with an image selected, `handleAnalyze` always returns a plain
state (in the embedding the `try` body's exception is an explicit
`Except.error` and the surrounding `catch` handles every one): either
the run succeeded and the parsed result is stored with no error, or the
run failed with some underlying error message `msg` and the error state
is exactly the single user-visible message embedding `msg`, the result
is cleared, and the error banner renders (the error state is
non-empty). -/
theorem C4_failures_surfaced (s : PageState) (f : FileB)
    (env : Nat → AttemptResult) (parse : String → ParseOutcome)
    (h : s.imageFile = some f) :
    (∃ v, (tryBody f env parse).1 = .ok v ∧
      (handleAnalyze s env parse).state.analysisResult = some v ∧
      (handleAnalyze s env parse).state.error = "") ∨
    (∃ msg, (tryBody f env parse).1 = .error msg ∧
      (handleAnalyze s env parse).state.error = errorMessage msg ∧
      (handleAnalyze s env parse).state.analysisResult = none ∧
      errorBannerShown (handleAnalyze s env parse).state = true) := by
  rcases hres : (tryBody f env parse).1 with msg | v
  · right
    refine ⟨msg, rfl, ?_, ?_, ?_⟩
    · rw [handleAnalyze_state_err s f env parse msg h hres]
    · rw [handleAnalyze_state_err s f env parse msg h hres]
    · rw [handleAnalyze_state_err s f env parse msg h hres]
      simpa [errorBannerShown] using errorMessage_ne_empty msg
  · left
    refine ⟨v, rfl, ?_, ?_⟩
    · rw [handleAnalyze_state_ok s f env parse v h hres]
    · rw [handleAnalyze_state_ok s f env parse v h hres]

/-- Witness for C4: a run whose three attempts all hit HTTP 400 fails
with the APIError message embedded in the user-visible error. -/
theorem C4_witness :
    (∃ v, (tryBody exFile env400 parseOk).1 = .ok v ∧
      (handleAnalyze exState env400 parseOk).state.analysisResult = some v ∧
      (handleAnalyze exState env400 parseOk).state.error = "") ∨
    (∃ msg, (tryBody exFile env400 parseOk).1 = .error msg ∧
      (handleAnalyze exState env400 parseOk).state.error = errorMessage msg ∧
      (handleAnalyze exState env400 parseOk).state.analysisResult = none ∧
      errorBannerShown (handleAnalyze exState env400 parseOk).state = true) :=
  C4_failures_surfaced exState exFile env400 parseOk rfl

/-! ### The reachable-state invariant behind C9 -/

/-- Error and result never both set; a result needs an uploaded file. -/
def ErrResultInv (s : PageState) : Prop :=
  (s.error ≠ "" → s.analysisResult = none) ∧
  (s.imageFile = none → s.analysisResult = none)

theorem errResultInv_init : ErrResultInv initState := by
  constructor <;> intro h <;> rfl

theorem errResultInv_fileChange (s : PageState) (file : Option FileB) (url : String)
    (h : ErrResultInv s) : ErrResultInv (handleFileChange s file url) := by
  cases file with
  | none => simpa [handleFileChange] using h
  | some f => constructor <;> intro hx <;> simp [handleFileChange]

theorem errResultInv_analyze (s : PageState) (env : Nat → AttemptResult)
    (parse : String → ParseOutcome) (h : ErrResultInv s) :
    ErrResultInv (handleAnalyze s env parse).state := by
  rcases hif : s.imageFile with _ | f
  · have hres : s.analysisResult = none := h.2 hif
    constructor <;> intro hx <;> simp [handleAnalyze, hif, hres]
  · rcases hres : (tryBody f env parse).1 with msg | v
    · rw [handleAnalyze_state_err s f env parse msg hif hres]
      constructor <;> intro hx <;> rfl
    · rw [handleAnalyze_state_ok s f env parse v hif hres]
      constructor
      · intro hne; exact absurd rfl hne
      · intro hnone; simp [hif] at hnone

theorem errResultInv_runSteps (steps : List Step) :
    ∀ s, ErrResultInv s → ErrResultInv (runSteps s steps) := by
  induction steps with
  | nil => intro s h; exact h
  | cons st rest ih =>
      intro s h
      simp only [runSteps, List.foldl_cons]
      apply ih
      cases st with
      | fileChange file url => exact errResultInv_fileChange s file url h
      | analyze env parse => exact errResultInv_analyze s env parse h

/-- C9: after any sequence of `handleFileChange` and `handleAnalyze`
operations from the initial state, a non-empty error message implies the
analysis result is cleared, so the page never renders the dashboard and
the error banner for the same run. -/
theorem C9_error_excludes_result (steps : List Step)
    (h : (runSteps initState steps).error ≠ "") :
    (runSteps initState steps).analysisResult = none :=
  (errResultInv_runSteps steps initState errResultInv_init).1 h

/-- Witness for C9: analyzing with no file uploaded reaches a state with
a non-empty error and no result. -/
theorem C9_witness :
    (runSteps initState [Step.analyze envOk parseOk]).analysisResult = none :=
  C9_error_excludes_result [Step.analyze envOk parseOk] (by decide)

/-! ### The base64 payload never contains a comma, so splitting the data
URL at commas recovers it at index 1 -/

theorem b64c_ne_comma (n : Nat) : b64c n ≠ ',' := by
  unfold b64c
  rw [List.getD_eq_getElem?_getD]
  rcases h : base64Chars[n]? with _ | c
  · simp
  · simp only [Option.getD_some]
    exact (by decide : ∀ c ∈ base64Chars, c ≠ ',') c (List.getElem?_mem h)

theorem comma_not_mem_base64Encode (bs : List Nat) : ',' ∉ base64Encode bs := by
  induction bs using base64Encode.induct with
  | case1 b1 b2 b3 rest ih =>
      simp only [base64Encode, List.mem_cons, not_or]
      exact ⟨Ne.symm (b64c_ne_comma _), Ne.symm (b64c_ne_comma _),
             Ne.symm (b64c_ne_comma _), Ne.symm (b64c_ne_comma _), ih⟩
  | case2 b1 b2 =>
      simp only [base64Encode, List.mem_cons, not_or]
      refine ⟨Ne.symm (b64c_ne_comma _), Ne.symm (b64c_ne_comma _),
              Ne.symm (b64c_ne_comma _), by decide, by simp⟩
  | case3 b1 =>
      simp only [base64Encode, List.mem_cons, not_or]
      refine ⟨Ne.symm (b64c_ne_comma _), Ne.symm (b64c_ne_comma _),
              by decide, by decide, by simp⟩
  | case4 => simp [base64Encode]

theorem splitCommaAux_append_comma (ys : List Char) :
    ∀ xs acc, ',' ∉ xs →
      splitCommaAux (xs ++ ',' :: ys) acc =
        (acc.reverse ++ xs) :: splitCommaAux ys [] := by
  intro xs
  induction xs with
  | nil => intro acc h; simp [splitCommaAux]
  | cons x xs ih =>
      intro acc h
      have hx : ¬(x = ',') := fun hc => h (hc ▸ List.mem_cons_self x xs)
      simp only [List.cons_append, splitCommaAux, List.append_eq]
      rw [if_neg hx, ih (x :: acc) fun hm => h (List.mem_cons_of_mem _ hm)]
      simp

theorem splitCommaAux_no_comma :
    ∀ xs acc, (',' ∉ xs) → splitCommaAux xs acc = [acc.reverse ++ xs] := by
  intro xs
  induction xs with
  | nil => intro acc h; simp [splitCommaAux]
  | cons x xs ih =>
      intro acc h
      have hx : ¬(x = ',') := fun hc => h (hc ▸ List.mem_cons_self x xs)
      simp only [splitCommaAux]
      rw [if_neg hx, ih (x :: acc) fun hm => h (List.mem_cons_of_mem _ hm)]
      simp

theorem dataURL_toList (f : FileB) :
    (dataURL f).toList =
      ("data:".toList ++ f.type.toList ++ ";base64".toList) ++
        ',' :: base64Encode f.bytes := by
  show ((("data:".toList ++ f.type.toList) ++ ";base64".toList) ++ [',']) ++
      base64Encode f.bytes = _
  simp [List.append_assoc]

/-- For a MIME type without a comma (every image MIME type), the data
kept at index 1 of the comma-split data URL is exactly the base64
payload of the file's bytes. -/
theorem fileToGenerativePart_data (f : FileB) (h : ',' ∉ f.type.toList) :
    (jsSplitComma (dataURL f)).getD 1 "" = String.mk (base64Encode f.bytes) := by
  have hpre : ',' ∉ ("data:".toList ++ f.type.toList ++ ";base64".toList) := by
    simp only [List.mem_append, not_or]
    exact ⟨⟨by decide, h⟩, by decide⟩
  unfold jsSplitComma
  rw [show (dataURL f).toList = _ from dataURL_toList f,
      splitCommaAux_append_comma _ _ _ hpre,
      splitCommaAux_no_comma _ _ (comma_not_mem_base64Encode f.bytes)]
  simp

/-! ### Navigating the payload for C5 -/

/-- `payload.contents[0].parts[1].inlineData`: the image part the page
puts second in the user turn's parts. -/
def payloadInlineData (body : JsonV) : Option JsonV :=
  (body.get? "contents").bind fun cs => (cs.at? 0).bind fun c0 =>
    (c0.get? "parts").bind fun ps => (ps.at? 1).bind fun ip => ip.get? "inlineData"

/-- `payload.generationConfig.responseSchema.required`. -/
def payloadRequired (body : JsonV) : Option JsonV :=
  (body.get? "generationConfig").bind fun g =>
    (g.get? "responseSchema").bind fun sc => sc.get? "required"

/-- C5: every request `handleAnalyze` sends is a POST to the fixed
Gemini endpoint whose body carries the file's base64-encoded bytes with
its MIME type as `inlineData`, and a `generationConfig` whose response
schema requires exactly the seven fields `waste_type`, `home_treatment`,
`industry_treatment`, `stats`, `waste_composition`, `disposal_trends`,
`recycling_rates`.  (Image MIME types contain no comma, which the
data-URL split relies on.) -/
theorem C5_request_shape (s : PageState) (f : FileB)
    (env : Nat → AttemptResult) (parse : String → ParseOutcome)
    (h : s.imageFile = some f) (hm : ',' ∉ f.type.toList) :
    ∀ req ∈ (handleAnalyze s env parse).trace.requests,
      req.method = "POST" ∧ req.url = apiUrl ∧
      payloadInlineData req.body =
        some (.obj [("data", .str (String.mk (base64Encode f.bytes))),
                    ("mimeType", .str f.type)]) ∧
      payloadRequired req.body =
        some (.arr [.str "waste_type", .str "home_treatment",
                    .str "industry_treatment", .str "stats",
                    .str "waste_composition", .str "disposal_trends",
                    .str "recycling_rates"]) := by
  intro req hreq
  rw [handleAnalyze_trace s f env parse h, tryBody_requests] at hreq
  rcases fetchLoop_reqs_mem env (buildRequest f) 3 1000 none [] [] req hreq with hin | heq
  · simp at hin
  · subst heq
    refine ⟨rfl, rfl, ?_, rfl⟩
    rw [show payloadInlineData (buildRequest f).body =
          some (.obj [("data", .str ((jsSplitComma (dataURL f)).getD 1 "")),
                      ("mimeType", .str f.type)]) from rfl,
        fileToGenerativePart_data f hm]

/-- Witness for C5 at a concrete run: the single request of a successful
first attempt has the claimed shape. -/
theorem C5_witness :
    (buildRequest exFile).method = "POST" ∧
    (buildRequest exFile).url = apiUrl ∧
    payloadInlineData (buildRequest exFile).body =
      some (.obj [("data", .str (String.mk (base64Encode exFile.bytes))),
                  ("mimeType", .str exFile.type)]) ∧
    payloadRequired (buildRequest exFile).body =
      some (.arr [.str "waste_type", .str "home_treatment",
                  .str "industry_treatment", .str "stats",
                  .str "waste_composition", .str "disposal_trends",
                  .str "recycling_rates"]) :=
  C5_request_shape exState exFile envOk parseOk rfl (by decide)
    (buildRequest exFile)
    (by rw [show (handleAnalyze exState envOk parseOk).trace.requests =
              [buildRequest exFile] from rfl]
        exact List.mem_singleton.mpr rfl)

/-! ### C1: what the code actually does with a client-error status

Page.tsx line 219 throws `APIError: <status> <statusText>` for a non-ok
status that is neither 429 nor 5xx, with the comment "Client error,
don't retry" — but the throw sits inside the same `try` whose `catch`
(line 221) sleeps, doubles the delay and retries unless `retries === 1`.
A persistent HTTP 400 therefore produces three fetch attempts with the
full backoff schedule, and the run fails only after the third. -/

/-- C1 (demonstration of the code's divergence from the claim): with
every attempt answering HTTP 400, `handleAnalyze` sends 3 requests,
sleeps 1000 ms and 2000 ms between them, and only then fails with the
APIError message — the claim's "not retried, fails terminally on that
first response" is false of the code. -/
theorem C1_client_error_is_retried :
    (handleAnalyze exState env400 parseOk).trace.requests.length = 3 ∧
    (handleAnalyze exState env400 parseOk).trace.waits = [1000, 2000] ∧
    (handleAnalyze exState env400 parseOk).state.error =
      errorMessage (apiErrorMsg r400) :=
  ⟨rfl, rfl, rfl⟩
